import Mathlib

/-!
Verification of the Lithium-Water Chemical Reaction Kinetic Estimator.

This file gives a shallow embedding of the estimator (geometry resolution,
kinetic-coefficient evaluation, and the time-stepped simulation loop of
`main` in source_code.py) and proves or refutes the specified properties.

Python floats are modelled by the real numbers; `math.log`, `math.exp`,
`math.sqrt` and `math.pi` by `Real.log`, `Real.exp`, `Real.sqrt` and
`Real.pi`.  Fallible paths (a `None` return, or an uncaught `TypeError`
from arithmetic on `None`) are modelled with `Option`.
-/

namespace LithiumWater

/-- One row of the boundary-condition table.  The simulation loop reads the
time, the downstream temperature and (when the column exists) the leak,
drainage and gas-flow rates; a rate column absent from the table is
modelled by `none` and the loop substitutes zero for it.  Pressure and
upstream-temperature columns are carried by the table but never read by
the loop, so they are omitted here. -/
structure BoundaryRow where
  time_s : ℝ
  downstream_temperature : ℝ
  leak_rate : Option ℝ
  drainage_rate : Option ℝ
  gas_flow_rate : Option ℝ

/-- Result of `chemical_reaction_domain`: the dictionary
`{shape, volume, area, surface_area, charac_length}`. -/
structure Geometry where
  shape : String
  volume : ℝ
  area : ℝ
  surface_area : ℝ
  charac_length : ℝ

/-- Embedding of `chemical_reaction_domain` (source_code.py lines 25-71).
The interactive `input()` reads are modelled by successive elements of
`user_inputs`; too few supplied dimensions, or an unrecognized choice,
gives `none`. -/
noncomputable def chemical_reaction_domain (domain_choice : String)
    (user_inputs : List ℝ) : Option Geometry :=
  if domain_choice = "1" then
    match user_inputs with
    | length :: width :: height :: _ =>
      let volume := length * width * height
      let area := (2 * (length * width)) + (2 * (length * height)) + (2 * (height * width))
      let surface_area := length * width
      let charac_length := Real.sqrt area
      some ⟨"cubic", volume, area, surface_area, charac_length⟩
    | _ => none
  else if domain_choice = "2" then
    match user_inputs with
    | radius :: height :: _ =>
      let volume := Real.pi * (radius ^ 2) * height
      let area := 2 * Real.pi * radius * (radius + height)
      let surface_area := Real.pi * (radius ^ 2)
      let charac_length := Real.sqrt surface_area
      some ⟨"cylindrical", volume, area, surface_area, charac_length⟩
    | _ => none
  else if domain_choice = "3" then
    match user_inputs with
    | radius :: _ =>
      some ⟨"hemispherical", (2/3) * Real.pi * (radius ^ 3),
            3 * Real.pi * (radius ^ 2), Real.pi * (radius ^ 2), radius * 2⟩
    | _ => none
  else if domain_choice = "4" then
    match user_inputs with
    | radius :: height :: _ =>
      let volume := ((2/3) * Real.pi * (radius ^ 3)) + (Real.pi * (radius ^ 2) * height)
      let area := (3 * Real.pi * (radius ^ 2)) + (2 * Real.pi * (radius * height))
      let surface_area := Real.pi * (radius ^ 2)
      some ⟨"Hemisphere + Cylinder", volume, area, surface_area, Real.sqrt surface_area⟩
    | _ => none
  else none

/-- Embedding of `reaction_coeff_calculation` (source_code.py lines 149-163).
In the Python, choice `'1'` with `frequency_for_coeff` or
`activation_energy_for_coeff` equal to `None` raises an uncaught
`TypeError` (arithmetic on `None`), and an unrecognized choice returns
`None`; both failure modes are modelled by `none`. -/
noncomputable def reaction_coeff_calculation (coeff_choice : String)
    (temp_for_coeff : ℝ) (frequency_for_coeff : Option ℝ)
    (activation_energy_for_coeff : Option ℝ) (gas_constant : ℝ) : Option ℝ :=
  if coeff_choice = "1" then
    match frequency_for_coeff, activation_energy_for_coeff with
    | some A, some Ea => some (A * Real.exp (-(Ea / (gas_constant * temp_for_coeff))))
    | _, _ => none
  else if coeff_choice = "2" then
    some (((0.8173 * temp_for_coeff) - 30.738) * (1/(100*3600)))
  else if coeff_choice = "3" then
    some ((0.9384 * Real.exp (0.0431 * temp_for_coeff)) * (1/(100*3600)))
  else none

/-- Kinetic model constant `alfa` (source_code.py line 195). -/
noncomputable def alfa : ℝ := 1

/-- Kinetic model constant `beta` (source_code.py line 196). -/
noncomputable def beta : ℝ := 0.45

/-- Molar mass of water, kg/mol (source_code.py line 197). -/
noncomputable def MW_H2O : ℝ := 0.01801528

/-- Molar mass of lithium, kg/mol (source_code.py line 198). -/
noncomputable def MW_Li : ℝ := 0.006941

/-- Molar mass of lithium hydroxide, kg/mol (source_code.py line 199). -/
noncomputable def MW_LiOH : ℝ := 0.02395

/-- Molar mass of hydrogen, kg/mol (source_code.py line 200). -/
noncomputable def MW_H2 : ℝ := 0.002016

/-- The mutable run state of `main`: the four cumulative mass totals
(lines 202-205), the running vapour-flow balance (line 221) and the
running lithium pool inventory (line 219). -/
structure RunState where
  H2O_tot : ℝ
  Li_tot : ℝ
  LiOH_tot : ℝ
  H2_tot : ℝ
  water_vapour_flow : ℝ
  lithium_inventory : ℝ

/-- The per-step values appended to the output series inside the loop
(source_code.py lines 244-274): time, the step coefficient, per-step
masses and heat, and the post-step vapour balance and pool inventory. -/
structure StepResult where
  time_s : ℝ
  reac_coeff : ℝ
  H2O_in_kg : ℝ
  Li_in_kg : ℝ
  LiOH_in_kg : ℝ
  H2_in_kg : ℝ
  energy_in_kj : ℝ
  water_vapour_flow : ℝ
  lithium_inventory : ℝ

/-- The run state at loop entry: every accumulator starts at zero
(source_code.py lines 202-205, 219, 221). -/
noncomputable def initialState : RunState := ⟨0, 0, 0, 0, 0, 0⟩

/-- One iteration of the simulation loop body given the already-computed
rate coefficient (source_code.py lines 229-274).  Returns the updated run
state together with the values appended to the output series. -/
noncomputable def simStepCore (reac_coeff : ℝ) (reac_area : ℝ)
    (row : BoundaryRow) (st : RunState) : RunState × StepResult :=
  let H2O_in_kg := (reac_coeff * Real.log (alfa + (beta * row.time_s))) * reac_area
  let H2O_in_mole := H2O_in_kg * (1 / MW_H2O)
  let Li_in_mole := H2O_in_mole
  let LiOH_in_mole := H2O_in_mole
  let H2_in_mole := H2O_in_mole * 0.5
  let Li_in_kg := Li_in_mole * MW_Li
  let LiOH_in_kg := LiOH_in_mole * MW_LiOH
  let H2_in_kg := H2_in_mole * MW_H2
  let energy_in_kj := 222 * H2O_in_mole
  let H2O_tot := st.H2O_tot + H2O_in_kg
  let Li_tot := st.Li_tot + Li_in_kg
  let LiOH_tot := st.LiOH_tot + LiOH_in_kg
  let H2_tot := st.H2_tot + H2_in_kg
  let gas_flow_rate := row.gas_flow_rate.getD 0
  let water_vapour_flow := st.water_vapour_flow + gas_flow_rate * 1 - H2O_in_kg
  let lithium_inlet := row.leak_rate.getD 0
  let lithium_outlet := row.drainage_rate.getD 0
  let lithium_inventory := st.lithium_inventory + lithium_inlet * 1 - lithium_outlet * 1 - Li_in_kg
  (⟨H2O_tot, Li_tot, LiOH_tot, H2_tot, water_vapour_flow, lithium_inventory⟩,
   ⟨row.time_s, reac_coeff, H2O_in_kg, Li_in_kg, LiOH_in_kg, H2_in_kg,
    energy_in_kj, water_vapour_flow, lithium_inventory⟩)

/-- One full iteration of the simulation loop (source_code.py lines
224-274): compute the rate coefficient from the row's downstream
temperature (lines 224-228), then run the loop body.  A failing
coefficient evaluation aborts the run (in Python the subsequent
arithmetic on `None` raises an uncaught `TypeError`). -/
noncomputable def simStep (cc : String) (freq act : Option ℝ) (area : ℝ)
    (st : RunState) (row : BoundaryRow) : Option (RunState × StepResult) :=
  (reaction_coeff_calculation cc row.downstream_temperature freq act 8.314).map
    fun reac_coeff => simStepCore reac_coeff area row st

/-- The simulation loop of `main` (source_code.py lines 223-274), folded
over the rows of the boundary table.  The trace records, for each step,
the run state after that step together with the emitted series values. -/
noncomputable def simLoop (cc : String) (freq act : Option ℝ) (area : ℝ) :
    RunState → List BoundaryRow → Option (List (RunState × StepResult))
  | _, [] => some []
  | st, row :: rest =>
    (simStep cc freq act area st row).bind fun out =>
      (simLoop cc freq act area out.1 rest).map fun tl => out :: tl

/-- A full run of `main`'s simulation loop from the all-zero initial
state. -/
noncomputable def simulateRun (cc : String) (freq act : Option ℝ) (area : ℝ)
    (rows : List BoundaryRow) : Option (List (RunState × StepResult)) :=
  simLoop cc freq act area initialState rows

/-- Embedding of `df.drop(labels, axis=1)` on the column-label sequence:
every column whose label occurs in `labels` is removed (pandas removes
all occurrences of a duplicated label). -/
def drop_columns (cols labels : List String) : List String :=
  cols.filter (fun c => !(labels.contains c))

/-- Embedding of the transient-mode column merge of `input_data`
(source_code.py lines 113-116) at the level of column labels:
`pd.concat([df1, df2], axis=1)` concatenates the label sequences,
`df.columns[df.columns == 'Time (s)']` selects the time labels, and when
more than one is present the labels from the third onward are dropped. -/
def input_data_transient_columns (cols1 cols2 : List String) : List String :=
  let merged := cols1 ++ cols2
  let time_columns := merged.filter (fun c => c == "Time (s)")
  if 1 < time_columns.length then drop_columns merged (time_columns.drop 2)
  else merged

/-- C5 counterexample: at T = 300 the Linear model returns exactly
5.957e-4, which does not agree with 5.956e-4 to 4 significant figures
(the difference is 1e-7, more than half a unit in the fourth figure). -/
theorem C5_counterexample :
    reaction_coeff_calculation "2" 300 none none 8.314 = some 0.0005957
    ∧ ¬ |(0.0005957 : ℝ) - 0.0005956| < 0.00000005 := by
  constructor
  · simp only [reaction_coeff_calculation, String.reduceEq, reduceIte]
    norm_num
  · rw [abs_sub_lt_iff]
    intro h
    norm_num at h

/-- C5 (amended): for every temperature T the Linear kinetic model returns
the coefficient (0.8173·T − 30.738) / 360000 with no unit conversion, and
at T = 300 the returned coefficient equals 5.957e-4 exactly. -/
theorem C5_linear_model (T : ℝ) :
    reaction_coeff_calculation "2" T none none 8.314
      = some ((0.8173 * T - 30.738) / 360000)
    ∧ reaction_coeff_calculation "2" 300 none none 8.314 = some 0.0005957 := by
  constructor
  · simp only [reaction_coeff_calculation, String.reduceEq, reduceIte]
    norm_num
    ring
  · simp only [reaction_coeff_calculation, String.reduceEq, reduceIte]
    norm_num

/-- C6: the kinetic-coefficient evaluation fails (never returns a
coefficient) when the Arrhenius model is selected but the pre-exponential
factor or the activation energy is absent, and fails for any model tag
other than "1" (Arrhenius), "2" (Linear) or "3" (Exponential). -/
theorem C6_invalid_input (T R : ℝ) (freq act : Option ℝ) (tag : String)
    (h1 : tag ≠ "1") (h2 : tag ≠ "2") (h3 : tag ≠ "3") :
    reaction_coeff_calculation "1" T none act R = none
    ∧ reaction_coeff_calculation "1" T freq none R = none
    ∧ reaction_coeff_calculation tag T freq act R = none := by
  refine ⟨?_, ?_, ?_⟩
  · simp only [reaction_coeff_calculation, if_pos rfl]
    cases act <;> rfl
  · simp only [reaction_coeff_calculation, if_pos rfl]
    cases freq <;> rfl
  · simp only [reaction_coeff_calculation, if_neg h1, if_neg h2, if_neg h3]

/-- C6 witness: at tag "4", temperature 300 and unit Arrhenius parameters
the three failure modes all return `none`. -/
theorem C6_invalid_input_witness :
    (("4" : String) ≠ "1" ∧ ("4" : String) ≠ "2" ∧ ("4" : String) ≠ "3")
    ∧ reaction_coeff_calculation "1" 300 none (some 1) 8.314 = none
    ∧ reaction_coeff_calculation "1" 300 (some 1) none 8.314 = none
    ∧ reaction_coeff_calculation "4" 300 (some 1) (some 1) 8.314 = none := by
  have h := C6_invalid_input 300 8.314 (some 1) (some 1) "4"
    (by decide) (by decide) (by decide)
  exact ⟨⟨by decide, by decide, by decide⟩, h.1, h.2.1, h.2.2⟩

/-- C3: in every step, the lithium and hydroxide masses equal the water
moles (water mass divided by MW_H2O = 0.01801528) times the molar masses
0.006941 and 0.02395 respectively, and the hydrogen mass equals half the
water moles times 0.002016 — the 1:1:1:0.5 stoichiometric invariant. -/
theorem C3_stoichiometry (k area : ℝ) (row : BoundaryRow) (st : RunState) :
    (simStepCore k area row st).2.Li_in_kg
      = ((simStepCore k area row st).2.H2O_in_kg / 0.01801528) * 0.006941
    ∧ (simStepCore k area row st).2.LiOH_in_kg
      = ((simStepCore k area row st).2.H2O_in_kg / 0.01801528) * 0.02395
    ∧ (simStepCore k area row st).2.H2_in_kg
      = (0.5 * ((simStepCore k area row st).2.H2O_in_kg / 0.01801528)) * 0.002016 := by
  refine ⟨?_, ?_, ?_⟩ <;>
    simp only [simStepCore, MW_H2O, MW_Li, MW_LiOH, MW_H2] <;> ring

/-- C2: in every step, the consumed-water mass equals the step's rate
coefficient (evaluated at that row's downstream temperature) times
ln(1 + 0.45·t) times the fixed reactive surface area, and at t = 0 it is
exactly 0 regardless of the coefficient. -/
theorem C2_water_mass_formula (cc : String) (freq act : Option ℝ) (area : ℝ)
    (row : BoundaryRow) (st : RunState) (out : RunState × StepResult)
    (hstep : simStep cc freq act area st row = some out) :
    reaction_coeff_calculation cc row.downstream_temperature freq act 8.314
      = some out.2.reac_coeff
    ∧ out.2.H2O_in_kg = out.2.reac_coeff * Real.log (1 + 0.45 * row.time_s) * area
    ∧ (row.time_s = 0 → out.2.H2O_in_kg = 0) := by
  unfold simStep at hstep
  cases h : reaction_coeff_calculation cc row.downstream_temperature freq act 8.314 with
  | none => rw [h] at hstep; exact absurd hstep (by simp)
  | some k =>
    rw [h] at hstep
    simp only [Option.map_some', Option.some.injEq] at hstep
    subst hstep
    refine ⟨rfl, ?_, ?_⟩
    · simp only [simStepCore, alfa, beta]
    · intro ht
      simp only [simStepCore, alfa, beta, ht]
      norm_num

/-- C2 witness: a Linear-model step at T = 300 on the t = 0 row with unit
area satisfies the formula, and its consumed-water mass is 0. -/
theorem C2_water_mass_formula_witness :
    reaction_coeff_calculation "2" (300:ℝ) none none 8.314
      = some (simStepCore (((0.8173 * 300) - 30.738) * (1/(100*3600))) 1
          ⟨0, 300, none, none, none⟩ initialState).2.reac_coeff
    ∧ (simStepCore (((0.8173 * 300) - 30.738) * (1/(100*3600))) 1
          ⟨0, 300, none, none, none⟩ initialState).2.H2O_in_kg = 0 := by
  have hstep : simStep "2" none none 1 initialState ⟨0, 300, none, none, none⟩
      = some (simStepCore (((0.8173 * 300) - 30.738) * (1/(100*3600))) 1
          ⟨0, 300, none, none, none⟩ initialState) := rfl
  have h := C2_water_mass_formula "2" none none 1 ⟨0, 300, none, none, none⟩
    initialState _ hstep
  exact ⟨h.1, h.2.2 rfl⟩

/-- C7 counterexample: the Cube branch applies no negativity guard, so
dimensions (2, −3, 1) are accepted and yield a strictly negative reactive
surface area −6, refuting nonnegativity for arbitrary dimensions. -/
theorem C7_counterexample :
    (chemical_reaction_domain "1" [2, -3, 1]).map Geometry.surface_area = some (-6)
    ∧ ((-6 : ℝ) < 0) := by
  constructor
  · simp [chemical_reaction_domain]
    norm_num
  · norm_num

/-- C7 (amended): every recognized shape returns exactly the documented
footprint formula — Cube l·w, Cylinder π·r², Hemisphere π·r²,
HemisphereCylinder π·r² — with no negativity guard on the dimensions; the
footprint is nonnegative for the three radial shapes at any real radius,
and for the Cube whenever length and width are nonnegative. -/
theorem C7_footprint_area (l w h r : ℝ) (hl : 0 ≤ l) (hw : 0 ≤ w) :
    (chemical_reaction_domain "1" [l, w, h]).map Geometry.surface_area = some (l * w)
    ∧ (chemical_reaction_domain "2" [r, h]).map Geometry.surface_area
        = some (Real.pi * r ^ 2)
    ∧ (chemical_reaction_domain "3" [r]).map Geometry.surface_area
        = some (Real.pi * r ^ 2)
    ∧ (chemical_reaction_domain "4" [r, h]).map Geometry.surface_area
        = some (Real.pi * r ^ 2)
    ∧ 0 ≤ l * w
    ∧ 0 ≤ Real.pi * r ^ 2 := by
  refine ⟨?_, ?_, ?_, ?_, mul_nonneg hl hw,
    mul_nonneg Real.pi_pos.le (sq_nonneg r)⟩ <;>
    simp [chemical_reaction_domain]

/-- C7 witness: unit dimensions satisfy the hypotheses, the Cube footprint
is 1·1 and the Cylinder footprint is π·1². -/
theorem C7_footprint_area_witness :
    ((0:ℝ) ≤ 1)
    ∧ (chemical_reaction_domain "1" [1, 1, 1]).map Geometry.surface_area
        = some ((1:ℝ) * 1)
    ∧ (chemical_reaction_domain "2" [1, 1]).map Geometry.surface_area
        = some (Real.pi * (1:ℝ) ^ 2)
    ∧ (0:ℝ) ≤ 1 * 1 := by
  have h := C7_footprint_area 1 1 1 1 zero_le_one zero_le_one
  exact ⟨zero_le_one, h.1, h.2.1, h.2.2.2.2.1⟩

/-- C8: with two imported tables each carrying a time column, the merged
transient boundary table keeps BOTH time columns: the code drops only the
time columns from the third onward (`time_columns[2:]`), so after the
merge two identical Time columns remain, not one. -/
theorem C8_duplicate_time_columns :
    input_data_transient_columns ["Time (s)", "A"] ["Time (s)", "B"]
      = ["Time (s)", "A", "Time (s)", "B"]
    ∧ (["Time (s)", "A", "Time (s)", "B"] : List String).count "Time (s)" = 2 := by
  constructor <;> rfl

/-- C9 counterexample: a run over a zero-row boundary table completes
normally and returns the empty output series — no error of any kind is
surfaced. -/
theorem C9_counterexample : simulateRun "2" none none 1 [] = some [] := rfl

/-- C9 (amended): for every model choice, parameter set and area, a run
over a boundary table with zero rows raises no error and completes
normally with empty output series (the code performs no row-count
validation). -/
theorem C9_empty_table_completes (cc : String) (freq act : Option ℝ) (area : ℝ) :
    simulateRun cc freq act area [] = some [] := rfl

/-- C4: the running lithium pool inventory is updated each step as
pool + leak·1 − drainage·1 − lithium_kg, starting from 0, with absent
rate fields substituted by zero; and the single-row run with leak = 1,
drainage = 0, t = 0 (zero water production, gas-flow column absent)
completes and yields pool inventory exactly 1 after step 0. -/
theorem C4_lithium_pool_update :
    (∀ (k a : ℝ) (row : BoundaryRow) (st : RunState),
        (simStepCore k a row st).1.lithium_inventory
          = st.lithium_inventory + (row.leak_rate.getD 0) * 1
              - (row.drainage_rate.getD 0) * 1
              - (simStepCore k a row st).2.Li_in_kg)
    ∧ initialState.lithium_inventory = 0
    ∧ (simulateRun "2" none none 1 [⟨0, 300, some 1, some 0, none⟩]).map
        (List.map fun p => p.1.lithium_inventory) = some [1] := by
  refine ⟨fun k a row st => rfl, rfl, ?_⟩
  have h0 : simulateRun "2" none none 1 [⟨0, 300, some 1, some 0, none⟩]
      = some [simStepCore (((0.8173 * 300) - 30.738) * (1/(100*3600))) 1
          ⟨0, 300, some 1, some 0, none⟩ initialState] := rfl
  rw [h0]
  simp only [Option.map_some', List.map_cons, List.map_nil, Option.some.injEq,
    List.cons.injEq, and_true]
  simp only [simStepCore, initialState, alfa, beta, MW_H2O, MW_Li,
    Option.getD_some]
  norm_num [Real.log_one]

/-- Componentwise order on the four cumulative mass totals of the run
state. -/
def totLE (a b : RunState) : Prop :=
  a.H2O_tot ≤ b.H2O_tot ∧ a.Li_tot ≤ b.Li_tot
    ∧ a.LiOH_tot ≤ b.LiOH_tot ∧ a.H2_tot ≤ b.H2_tot

theorem totLE_trans {a b c : RunState} (h1 : totLE a b) (h2 : totLE b c) :
    totLE a c :=
  ⟨h1.1.trans h2.1, h1.2.1.trans h2.2.1, h1.2.2.1.trans h2.2.2.1,
   h1.2.2.2.trans h2.2.2.2⟩

/-- A single loop-body iteration with a nonnegative coefficient, a
nonnegative area and a nonnegative row time does not decrease any of the
four cumulative mass totals, and emits a nonnegative per-step heat. -/
theorem simStepCore_totals_mono (k area : ℝ) (row : BoundaryRow)
    (st : RunState) (hk : 0 ≤ k) (harea : 0 ≤ area) (ht : 0 ≤ row.time_s) :
    totLE st (simStepCore k area row st).1
    ∧ 0 ≤ (simStepCore k area row st).2.energy_in_kj := by
  have hlog : 0 ≤ Real.log (alfa + beta * row.time_s) := by
    apply Real.log_nonneg
    simp only [alfa, beta]
    nlinarith
  have hwater : 0 ≤ (k * Real.log (alfa + beta * row.time_s)) * area :=
    mul_nonneg (mul_nonneg hk hlog) harea
  have hmole : 0 ≤ ((k * Real.log (alfa + beta * row.time_s)) * area) * (1 / MW_H2O) :=
    mul_nonneg hwater (by norm_num [MW_H2O])
  refine ⟨⟨?_, ?_, ?_, ?_⟩, ?_⟩ <;> simp only [simStepCore]
  · exact le_add_of_nonneg_right hwater
  · exact le_add_of_nonneg_right (mul_nonneg hmole (by norm_num [MW_Li]))
  · exact le_add_of_nonneg_right (mul_nonneg hmole (by norm_num [MW_LiOH]))
  · exact le_add_of_nonneg_right
      (mul_nonneg (mul_nonneg hmole (by norm_num)) (by norm_num [MW_H2]))
  · exact mul_nonneg (by norm_num) hmole

/-- Along any successful run of the simulation loop with nonnegative
area, row times and step coefficients, every trace state dominates the
entry state on the four mass totals, every emitted heat is nonnegative,
and adjacent trace states are ordered. -/
theorem simLoop_totals_mono (cc : String) (freq act : Option ℝ) (area : ℝ)
    (harea : 0 ≤ area) (rows : List BoundaryRow) :
    ∀ (st : RunState) (tr : List (RunState × StepResult)),
      (∀ r ∈ rows, 0 ≤ r.time_s) →
      (∀ r ∈ rows, ∀ k,
        reaction_coeff_calculation cc r.downstream_temperature freq act 8.314 = some k
          → 0 ≤ k) →
      simLoop cc freq act area st rows = some tr →
      (∀ p ∈ tr, totLE st p.1 ∧ 0 ≤ p.2.energy_in_kj)
      ∧ tr.Chain' (fun a b => totLE a.1 b.1) := by
  induction rows with
  | nil =>
    intro st tr _ _ hloop
    simp only [simLoop, Option.some.injEq] at hloop
    subst hloop
    exact ⟨by simp, by simp⟩
  | cons row rest ih =>
    intro st tr htime hcoeff hloop
    simp only [simLoop] at hloop
    cases hstep : simStep cc freq act area st row with
    | none => rw [hstep] at hloop; exact absurd hloop (by simp)
    | some out =>
      rw [hstep] at hloop
      simp only [Option.some_bind] at hloop
      cases hrest : simLoop cc freq act area out.1 rest with
      | none => rw [hrest] at hloop; exact absurd hloop (by simp)
      | some tl =>
        rw [hrest] at hloop
        simp only [Option.some_bind, Option.map_some', Option.some.injEq] at hloop
        subst hloop
        unfold simStep at hstep
        rw [Option.map_eq_some'] at hstep
        obtain ⟨k, hkeq, hout⟩ := hstep
        subst hout
        have hk0 : 0 ≤ k := hcoeff row (List.mem_cons_self row rest) k hkeq
        have hmono := simStepCore_totals_mono k area row st hk0 harea
          (htime row (List.mem_cons_self row rest))
        have ihres := ih (simStepCore k area row st).1 tl
          (fun r hr => htime r (List.mem_cons_of_mem row hr))
          (fun r hr => hcoeff r (List.mem_cons_of_mem row hr)) hrest
        constructor
        · intro p hp
          rcases List.mem_cons.mp hp with hp | hp
          · subst hp
            exact ⟨hmono.1, hmono.2⟩
          · exact ⟨totLE_trans hmono.1 (ihres.1 p hp).1, (ihres.1 p hp).2⟩
        · refine List.chain'_cons'.mpr ⟨?_, ihres.2⟩
          intro b hb
          exact (ihres.1 b (List.mem_of_mem_head? hb)).1

/-- C1 (amended): the four cumulative totals the code maintains (consumed
water, consumed lithium, produced hydroxide, produced hydrogen) are each
updated by simple addition of that step's quantity and never reset, and
whenever the reactive area, every row time and every step's rate
coefficient are nonnegative, the sequence of these totals along the run
is monotonically non-decreasing from 0 and every per-step heat value is
nonnegative (the code keeps no cumulative heat total — the heat series
stores per-step values — so under these hypotheses its running sum is
non-decreasing as well).  With a negative rate coefficient the totals can
strictly decrease, so the monotonicity does not hold for every parameter
choice. -/
theorem C1_totals_monotone (cc : String) (freq act : Option ℝ) (area : ℝ)
    (rows : List BoundaryRow) (tr : List (RunState × StepResult))
    (harea : 0 ≤ area)
    (htime : ∀ r ∈ rows, 0 ≤ r.time_s)
    (hcoeff : ∀ r ∈ rows, ∀ k,
      reaction_coeff_calculation cc r.downstream_temperature freq act 8.314 = some k
        → 0 ≤ k)
    (hrun : simulateRun cc freq act area rows = some tr) :
    (∀ (k a : ℝ) (row : BoundaryRow) (st : RunState),
        (simStepCore k a row st).1.H2O_tot
            = st.H2O_tot + (simStepCore k a row st).2.H2O_in_kg
        ∧ (simStepCore k a row st).1.Li_tot
            = st.Li_tot + (simStepCore k a row st).2.Li_in_kg
        ∧ (simStepCore k a row st).1.LiOH_tot
            = st.LiOH_tot + (simStepCore k a row st).2.LiOH_in_kg
        ∧ (simStepCore k a row st).1.H2_tot
            = st.H2_tot + (simStepCore k a row st).2.H2_in_kg)
    ∧ tr.Chain' (fun a b => totLE a.1 b.1)
    ∧ (∀ p ∈ tr,
        (0 ≤ p.1.H2O_tot ∧ 0 ≤ p.1.Li_tot ∧ 0 ≤ p.1.LiOH_tot ∧ 0 ≤ p.1.H2_tot)
        ∧ 0 ≤ p.2.energy_in_kj) := by
  have h := simLoop_totals_mono cc freq act area harea rows initialState tr
    htime hcoeff hrun
  refine ⟨fun k a row st => ⟨rfl, rfl, rfl, rfl⟩, h.2, fun p hp => ?_⟩
  have hdom := h.1 p hp
  exact ⟨⟨hdom.1.1, hdom.1.2.1, hdom.1.2.2.1, hdom.1.2.2.2⟩, hdom.2⟩

/-- C1 witness: a Linear-model run at T = 300 over the single row t = 0
with unit area; the coefficient 5.957e-4 is nonnegative, the run
succeeds, the one-element trace is a (trivially) ordered chain and has
nonnegative totals and heat. -/
theorem C1_totals_monotone_witness :
    ((0:ℝ) ≤ 1)
    ∧ ((0:ℝ) ≤ ((0.8173 * 300) - 30.738) * (1/(100*3600)))
    ∧ List.Chain' (fun a b => totLE a.1 b.1)
        [((⟨0, 0, 0, 0, 0, 0⟩ : RunState),
          (⟨0, ((0.8173 * 300) - 30.738) * (1/(100*3600)), 0, 0, 0, 0, 0, 0, 0⟩
            : StepResult))]
    ∧ (0 ≤ ((⟨0, 0, 0, 0, 0, 0⟩ : RunState)).H2O_tot)
    ∧ (0 ≤ ((⟨0, ((0.8173 * 300) - 30.738) * (1/(100*3600)), 0, 0, 0, 0, 0, 0, 0⟩
          : StepResult)).energy_in_kj) := by
  have hrun : simulateRun "2" none none 1 [⟨0, 300, none, none, none⟩]
      = some [((⟨0, 0, 0, 0, 0, 0⟩ : RunState),
          (⟨0, ((0.8173 * 300) - 30.738) * (1/(100*3600)), 0, 0, 0, 0, 0, 0, 0⟩
            : StepResult))] := by
    have h0 : simulateRun "2" none none 1 [⟨0, 300, none, none, none⟩]
        = some [simStepCore (((0.8173 * 300) - 30.738) * (1/(100*3600))) 1
            ⟨0, 300, none, none, none⟩ initialState] := rfl
    rw [h0]
    simp only [Option.some.injEq, List.cons.injEq, and_true, Prod.mk.injEq,
      simStepCore, initialState, alfa, beta, MW_H2O, MW_Li, MW_LiOH, MW_H2,
      Option.getD_none, RunState.mk.injEq, StepResult.mk.injEq]
    norm_num [Real.log_one]
  have h := C1_totals_monotone "2" none none 1 [⟨0, 300, none, none, none⟩]
    [((⟨0, 0, 0, 0, 0, 0⟩ : RunState),
      (⟨0, ((0.8173 * 300) - 30.738) * (1/(100*3600)), 0, 0, 0, 0, 0, 0, 0⟩
        : StepResult))]
    zero_le_one
    (by intro r hr; rw [List.mem_singleton] at hr; subst hr; exact le_refl 0)
    (by
      intro r hr k hkeq
      rw [List.mem_singleton] at hr
      subst hr
      simp only [reaction_coeff_calculation, String.reduceEq, reduceIte,
        Option.some.injEq] at hkeq
      subst hkeq
      norm_num)
    hrun
  have hp := h.2.2 _ (List.mem_singleton.mpr rfl)
  exact ⟨zero_le_one, by norm_num, h.2.1, hp.1.1, hp.2⟩

/-- C1 counterexample: with the Linear model at temperature 0 the rate
coefficient is strictly negative, so over the two-row table with times
0 and 1 the cumulative consumed-water total strictly decreases from step
0 to step 1, refuting monotonicity for every model and parameter
choice. -/
theorem C1_counterexample :
    ((((simulateRun "2" none none 1
          [⟨0, 0, none, none, none⟩, ⟨1, 0, none, none, none⟩]).getD []).map
        fun p => p.1.H2O_tot).getD 1 0)
      < ((((simulateRun "2" none none 1
          [⟨0, 0, none, none, none⟩, ⟨1, 0, none, none, none⟩]).getD []).map
        fun p => p.1.H2O_tot).getD 0 0) := by
  have h0 : simulateRun "2" none none 1
      [⟨0, 0, none, none, none⟩, ⟨1, 0, none, none, none⟩]
      = some [simStepCore (((0.8173 * 0) - 30.738) * (1/(100*3600))) 1
            ⟨0, 0, none, none, none⟩ initialState,
          simStepCore (((0.8173 * 0) - 30.738) * (1/(100*3600))) 1
            ⟨1, 0, none, none, none⟩
            (simStepCore (((0.8173 * 0) - 30.738) * (1/(100*3600))) 1
              ⟨0, 0, none, none, none⟩ initialState).1] := rfl
  rw [h0]
  simp only [Option.getD_some, List.map_cons, List.map_nil, List.getD_cons_succ,
    List.getD_cons_zero, simStepCore, initialState]
  have hlog : 0 < Real.log (alfa + beta * (1:ℝ)) := by
    apply Real.log_pos
    simp only [alfa, beta]
    norm_num
  have hlog0 : Real.log (alfa + beta * (0:ℝ)) = 0 := by
    simp only [alfa, beta]
    norm_num [Real.log_one]
  rw [hlog0]
  nlinarith [hlog]

/-- C10 (amended): for every temperature strictly below 30.738/0.8173 the
Linear kinetic model returns a strictly negative rate coefficient, and
every step at such a temperature with time_s > 0 and strictly positive
reactive area produces strictly negative per-step water, lithium,
hydroxide and hydrogen masses and strictly negative heat — no clamping to
zero is applied anywhere in the step computation.  (Strict negativity of
the masses requires a strictly positive area: with zero area they are
zero; see the counterexample.) -/
theorem C10_negative_linear_step (area : ℝ) (row : BoundaryRow)
    (st : RunState) (out : RunState × StepResult)
    (hT : row.downstream_temperature < 30.738 / 0.8173)
    (ht : 0 < row.time_s) (harea : 0 < area)
    (hstep : simStep "2" none none area st row = some out) :
    out.2.reac_coeff < 0
    ∧ out.2.H2O_in_kg < 0
    ∧ out.2.Li_in_kg < 0
    ∧ out.2.LiOH_in_kg < 0
    ∧ out.2.H2_in_kg < 0
    ∧ out.2.energy_in_kj < 0 := by
  unfold simStep at hstep
  simp only [reaction_coeff_calculation, String.reduceEq, reduceIte,
    Option.map_some', Option.some.injEq] at hstep
  subst hstep
  have hk : ((0.8173 * row.downstream_temperature) - 30.738) * (1/(100*3600)) < 0 := by
    nlinarith [hT]
  have hlog : 0 < Real.log (alfa + beta * row.time_s) := by
    apply Real.log_pos
    simp only [alfa, beta]
    nlinarith
  have hwater :
      ((((0.8173 * row.downstream_temperature) - 30.738) * (1/(100*3600)))
        * Real.log (alfa + beta * row.time_s)) * area < 0 :=
    mul_neg_of_neg_of_pos (mul_neg_of_neg_of_pos hk hlog) harea
  have hmole :
      (((((0.8173 * row.downstream_temperature) - 30.738) * (1/(100*3600)))
        * Real.log (alfa + beta * row.time_s)) * area) * (1 / MW_H2O) < 0 :=
    mul_neg_of_neg_of_pos hwater (by norm_num [MW_H2O])
  refine ⟨?_, ?_, ?_, ?_, ?_, ?_⟩ <;> simp only [simStepCore]
  · exact hk
  · exact hwater
  · exact mul_neg_of_neg_of_pos hmole (by norm_num [MW_Li])
  · exact mul_neg_of_neg_of_pos hmole (by norm_num [MW_LiOH])
  · exact mul_neg_of_neg_of_pos
      (mul_neg_of_neg_of_pos hmole (by norm_num)) (by norm_num [MW_H2])
  · exact mul_neg_of_pos_of_neg (by norm_num) hmole

/-- C10 witness: at temperature 0 (below 30.738/0.8173 ≈ 37.61), time 1
and unit area, the Linear-model step has strictly negative coefficient,
masses and heat. -/
theorem C10_negative_linear_step_witness :
    ((0:ℝ) < 30.738 / 0.8173)
    ∧ ((0:ℝ) < 1)
    ∧ (simStepCore (((0.8173 * 0) - 30.738) * (1/(100*3600))) 1
        ⟨1, 0, none, none, none⟩ initialState).2.reac_coeff < 0
    ∧ (simStepCore (((0.8173 * 0) - 30.738) * (1/(100*3600))) 1
        ⟨1, 0, none, none, none⟩ initialState).2.H2O_in_kg < 0
    ∧ (simStepCore (((0.8173 * 0) - 30.738) * (1/(100*3600))) 1
        ⟨1, 0, none, none, none⟩ initialState).2.Li_in_kg < 0
    ∧ (simStepCore (((0.8173 * 0) - 30.738) * (1/(100*3600))) 1
        ⟨1, 0, none, none, none⟩ initialState).2.energy_in_kj < 0 := by
  have hstep : simStep "2" none none 1 initialState ⟨1, 0, none, none, none⟩
      = some (simStepCore (((0.8173 * 0) - 30.738) * (1/(100*3600))) 1
          ⟨1, 0, none, none, none⟩ initialState) := rfl
  have h := C10_negative_linear_step 1 ⟨1, 0, none, none, none⟩ initialState _
    (by norm_num) (by norm_num) one_pos hstep
  exact ⟨by norm_num, one_pos, h.1, h.2.1, h.2.2.1, h.2.2.2.2.2⟩

/-- C10 counterexample: the claim as stated omits any condition on the
reactive area.  The code accepts a zero footprint (for example a cube
with a zero edge), and at temperature 0 < 30.738/0.8173 with t = 1 > 0
the step over a zero area produces a water mass of exactly 0, not a
strictly negative one. -/
theorem C10_counterexample :
    simStep "2" none none 0 initialState ⟨1, 0, none, none, none⟩
      = some (simStepCore (((0.8173 * 0) - 30.738) * (1/(100*3600))) 0
          ⟨1, 0, none, none, none⟩ initialState)
    ∧ ((⟨1, 0, none, none, none⟩ : BoundaryRow).downstream_temperature
        < 30.738 / 0.8173)
    ∧ (0 < (⟨1, 0, none, none, none⟩ : BoundaryRow).time_s)
    ∧ (simStepCore (((0.8173 * 0) - 30.738) * (1/(100*3600))) 0
        ⟨1, 0, none, none, none⟩ initialState).2.H2O_in_kg = 0
    ∧ ¬ (simStepCore (((0.8173 * 0) - 30.738) * (1/(100*3600))) 0
        ⟨1, 0, none, none, none⟩ initialState).2.H2O_in_kg < 0 := by
  have hzero : (simStepCore (((0.8173 * 0) - 30.738) * (1/(100*3600))) 0
      ⟨1, 0, none, none, none⟩ initialState).2.H2O_in_kg = 0 := by
    simp only [simStepCore]
    ring
  refine ⟨rfl, by norm_num, by norm_num, hzero, ?_⟩
  rw [hzero]
  exact lt_irrefl 0

end LithiumWater
